import Mathlib

/-!
Verification of the LAB4 leader/follower key-value store
(`src/LAB4/server.py`) against its specification.

The Python handlers are shallowly embedded as pure Lean functions:

* the module-level dict `data_store` is an association list with
  Python-dict update semantics (`dictSet`, `dictGet`);
* a JSON request body is `Option` of an association list of string
  fields (`none` models a non-dict or absent JSON body, an empty list
  models a falsy dict);
* the nondeterministic transport outcomes of the replication fan-out
  are an explicit parameter: a list of per-follower results in
  completion order for the counting loop, and a `transport` function
  for the per-follower attempt `replicate_to_one_follower`;
* the lock/network structure of each handler is additionally embedded
  as a trace of abstract actions, read off the `with data_lock:` blocks
  and the `requests.post` calls in the source.
-/

namespace Lab4

/-- Python dict from string keys to string values, as an association
list: `data_store` in server.py. -/
abbrev Store := List (String × String)

/-- `d[k] = v` on a Python dict: update in place if the key is present
(keeping insertion order), else append at the end. -/
def dictSet (s : Store) (k v : String) : Store :=
  match s with
  | [] => [(k, v)]
  | (k', v') :: rest =>
      if k' = k then (k, v) :: rest else (k', v') :: dictSet rest k v

/-- `d.get(k)` / `k in d` on a Python dict: first (unique) binding. -/
def dictGet (s : Store) (k : String) : Option String :=
  match s with
  | [] => none
  | (k', v') :: rest => if k' = k then some v' else dictGet rest k

/-- A JSON request body as seen by `request.get_json()`: `none` for a
missing/null body, otherwise a dict of string fields. -/
abbrev Body := Option (List (String × String))

/-- Python truthiness test `not data` on the body: `None` or an empty
dict is falsy. -/
def bodyFalsy : Body → Bool
  | none => true
  | some d => d.isEmpty

/-- Field lookup `data['f']` / the membership test `'f' in data`. -/
def bodyField (b : Body) (f : String) : Option String :=
  match b with
  | none => none
  | some d => dictGet d f

/-- The validation test in `set_value` and `replicate`:
`not data or 'key' not in data or 'value' not in data`. -/
def invalidBody (b : Body) : Bool :=
  bodyFalsy b || (bodyField b "key").isNone || (bodyField b "value").isNone

/-- Outcome of one `requests.post` transport attempt: an HTTP response
with a status code, or any raised exception (timeout, connection
error, ...). -/
inductive TransportResult where
  | ok (statusCode : Nat)
  | exc
deriving DecidableEq, Repr

/-- `replicate_to_one_follower` (server.py lines 128-146): returns
`True` exactly on a 200 response; any exception is caught and yields
`False`. -/
def replicate_to_one_follower : TransportResult → Bool
  | .ok statusCode => statusCode == 200
  | .exc => false

/-- The aggregation loop of `replicate_to_followers` (lines 149-163):
a running count over the results in completion order; after each
acknowledgment, if the count has reached the quorum the loop breaks
and the count is returned; a `False` result never triggers the check. -/
def fanoutLoop (quorum : Nat) : Nat → List Bool → Nat
  | c, [] => c
  | c, true :: rs =>
      if c + 1 ≥ quorum then c + 1 else fanoutLoop quorum (c + 1) rs
  | c, false :: rs => fanoutLoop quorum c rs

/-- `replicate_to_followers`, as a function of the per-follower results
in completion order: the number of successful confirmations returned
to `set_value`. -/
def replicate_to_followers (quorum : Nat) (results : List Bool) : Nat :=
  fanoutLoop quorum 0 results

/-- The list of futures submitted by `replicate_to_followers`
(lines 151-154): exactly one attempt per configured follower, whose
result is `replicate_to_one_follower` on that follower's own transport
outcome. -/
def fanoutResults (followers : List String)
    (transport : String → TransportResult) : List Bool :=
  followers.map (fun f => replicate_to_one_follower (transport f))

/-- Response of the `POST /set` handler. -/
inductive SetResponse where
  /-- 403: node is not the leader. -/
  | roleError
  /-- 400: body missing or lacking `key`/`value`. -/
  | validationError
  /-- 200 with the achieved replica count. -/
  | ok (key value : String) (replicas : Nat)
  /-- 500 with the achieved count and the required quorum in the
  error detail. -/
  | quorumError (got need : Nat)
deriving DecidableEq, Repr

/-- HTTP status code of a `/set` response. -/
def SetResponse.statusCode : SetResponse → Nat
  | .roleError => 403
  | .validationError => 400
  | .ok _ _ _ => 200
  | .quorumError _ _ => 500

/-- Whether a `/set` response is the success response. -/
def SetResponse.isOk : SetResponse → Bool
  | .ok _ _ _ => true
  | _ => false

/-- `set_value` (server.py lines 55-92). `nodeType` is `NODE_TYPE`,
`quorum` is `WRITE_QUORUM`, `results` stands for the completion-order
transport outcomes consumed by `replicate_to_followers`. Returns the
updated `data_store` and the response. -/
def set_value (nodeType : String) (quorum : Nat) (store : Store)
    (body : Body) (results : List Bool) : Store × SetResponse :=
  if nodeType ≠ "leader" then (store, .roleError)
  else if invalidBody body then (store, .validationError)
  else
    let key := (bodyField body "key").getD ""
    let value := (bodyField body "value").getD ""
    let store' := dictSet store key value
    let success_count := replicate_to_followers quorum results
    if success_count ≥ quorum then
      (store', .ok key value success_count)
    else
      (store', .quorumError success_count quorum)

/-- Response of the `POST /replicate` handler. -/
inductive ReplicateResponse where
  /-- 403: node is not a follower. -/
  | roleError
  /-- 400: body missing or lacking `key`/`value`. -/
  | validationError
  /-- 200 acknowledgment naming the key. -/
  | ok (key : String)
deriving DecidableEq, Repr

/-- HTTP status code of a `/replicate` response. -/
def ReplicateResponse.statusCode : ReplicateResponse → Nat
  | .roleError => 403
  | .validationError => 400
  | .ok _ => 200

/-- `replicate` (server.py lines 94-120): follower-side replication
endpoint. Returns the updated `data_store` and the response. -/
def replicate (nodeType : String) (store : Store) (body : Body) :
    Store × ReplicateResponse :=
  if nodeType ≠ "follower" then (store, .roleError)
  else if invalidBody body then (store, .validationError)
  else
    let key := (bodyField body "key").getD ""
    let value := (bodyField body "value").getD ""
    (dictSet store key value, .ok key)

/-- `GET /get/(key)` (server.py lines 39-53): local read only. -/
def get_value (store : Store) (key : String) : Option String :=
  dictGet store key

/-! ### Lock/network traces

Each handler's use of `data_lock` and of the network is read off the
source as a sequence of abstract actions: `with data_lock:` opens an
`acquire`/`release` pair around the `data_store` accesses inside it,
and each `requests.post` of the fan-out is a `network`. -/

/-- An abstract action of a handler: lock acquire/release, an access
of the `data_store` map, or a network call. -/
inductive Action where
  | acquire
  | release
  | mapAccess
  | network
deriving DecidableEq, Repr

/-- The execution paths of `set_value`: role rejection, validation
rejection, or the main write-and-replicate path. -/
inductive SetPath where
  | roleErr
  | valErr
  | main
deriving DecidableEq, Repr

/-- Trace of `replicate_to_followers` with `n` followers: one
`requests.post` network call per follower, no lock use (lines
122-163 never touch `data_lock`). -/
def replicate_to_followers_trace (n : Nat) : List Action :=
  List.replicate n .network

/-- Trace of `set_value` on each path: the error paths touch neither
the lock nor the network; the main path takes the lock around the
single store write (lines 75-76), releases it, and only then calls
`replicate_to_followers` (line 79). -/
def set_value_trace : SetPath → Nat → List Action
  | .roleErr, _ => []
  | .valErr, _ => []
  | .main, n =>
      [.acquire, .mapAccess, .release] ++ replicate_to_followers_trace n

/-- The execution paths of `replicate`. -/
inductive ReplicatePath where
  | roleErr
  | valErr
  | main
deriving DecidableEq, Repr

/-- Trace of `replicate` on each path: the main path takes the lock
only around the store write (lines 114-115); no network call. -/
def replicate_trace : ReplicatePath → List Action
  | .roleErr => []
  | .valErr => []
  | .main => [.acquire, .mapAccess, .release]

/-- Trace of `get_value` (lines 42-53): the lock is held around the
membership test and read; both branches do no network call. -/
def get_value_trace : List Action :=
  [.acquire, .mapAccess, .release]

/-- Trace of `status` (lines 32-37): the lock is held around the map
snapshot; no network call. -/
def status_trace : List Action :=
  [.acquire, .mapAccess, .release]

/-- The lock discipline checker: scanning a trace with the lock-held
flag, while the lock is held only map accesses (and the release) may
occur — a network call or a nested acquire while held violates the
discipline. -/
def lockDiscipline : Bool → List Action → Bool
  | _, [] => true
  | false, .acquire :: r => lockDiscipline true r
  | false, .release :: r => lockDiscipline false r
  | false, .mapAccess :: r => lockDiscipline false r
  | false, .network :: r => lockDiscipline false r
  | true, .mapAccess :: r => lockDiscipline true r
  | true, .release :: r => lockDiscipline false r
  | true, .acquire :: _ => false
  | true, .network :: _ => false

/-! ### Timed model of the fan-out

`replicate_to_followers` runs its attempts on a
`with ThreadPoolExecutor(...) as executor:` block.  Each attempt has a
completion time (delay plus RPC); `as_completed` yields results in
completion order, and the counting loop `break`s at quorum.  Exiting
the `with` block, however, runs `Executor.__exit__`, which calls
`executor.shutdown(wait=True)` (Python standard library semantics):
the function can return only after every submitted attempt has
completed, whether or not the loop broke early. -/

/-- One replication attempt of the timed model: its completion time
and whether it acknowledged. -/
structure Attempt where
  time : Nat
  ack : Bool
deriving DecidableEq, Repr

/-- Insert an attempt into a list sorted by completion time. -/
def insertByTime (a : Attempt) : List Attempt → List Attempt
  | [] => [a]
  | b :: rest =>
      if a.time ≤ b.time then a :: b :: rest else b :: insertByTime a rest

/-- The order in which `as_completed` yields the attempts: sorted by
completion time. -/
def completionOrder : List Attempt → List Attempt
  | [] => []
  | a :: rest => insertByTime a (completionOrder rest)

/-- The time at which the counting loop `break`s: the completion time
of the acknowledgment that brings the running count to the quorum
(`none` if the quorum is never reached).  Takes the attempts already
in completion order. -/
def quorumReachTime (quorum : Nat) : Nat → List Attempt → Option Nat
  | _, [] => none
  | c, a :: rest =>
      if a.ack then
        if c + 1 ≥ quorum then some a.time
        else quorumReachTime quorum (c + 1) rest
      else quorumReachTime quorum c rest

/-- The time at which `replicate_to_followers` actually returns: the
`with` block's implicit `shutdown(wait=True)` waits for every
submitted attempt, so the return happens at the latest completion
time among all attempts. -/
def fanoutReturnTime (attempts : List Attempt) : Nat :=
  (attempts.map Attempt.time).foldr max 0

/-- The per-follower results in completion order, as consumed by the
counting loop. -/
def ackSequence (attempts : List Attempt) : List Bool :=
  (completionOrder attempts).map Attempt.ack

/-! ### Helper lemmas -/

/-- Number of acknowledgments in a result list. -/
def countTrue : List Bool → Nat
  | [] => 0
  | true :: rs => countTrue rs + 1
  | false :: rs => countTrue rs

theorem countTrue_eq_count (l : List Bool) : countTrue l = l.count true := by
  induction l with
  | nil => rfl
  | cons r rs ih =>
      cases r <;> simp [countTrue, List.count_cons, ih]

theorem countTrue_perm {l₁ l₂ : List Bool} (h : l₁.Perm l₂) :
    countTrue l₁ = countTrue l₂ := by
  rw [countTrue_eq_count, countTrue_eq_count, h.count_eq]

theorem fanoutLoop_eq (quorum : Nat) (l : List Bool) :
    ∀ c : Nat, c < max quorum 1 →
      fanoutLoop quorum c l = min (c + countTrue l) (max quorum 1) := by
  induction l with
  | nil =>
      intro c hc
      simp only [fanoutLoop, countTrue]
      omega
  | cons r rs ih =>
      intro c hc
      cases r
      · simpa [fanoutLoop, countTrue] using ih c hc
      · simp only [fanoutLoop, countTrue]
        by_cases hq : c + 1 ≥ quorum
        · simp only [hq, if_true, ge_iff_le, if_pos]
          omega
        · have hlt : c + 1 < max quorum 1 := by omega
          rw [if_neg hq, ih (c + 1) hlt]
          omega

theorem replicate_to_followers_eq (quorum : Nat) (l : List Bool) :
    replicate_to_followers quorum l = min (countTrue l) (max quorum 1) := by
  have h := fanoutLoop_eq quorum l 0 (by omega)
  simpa [replicate_to_followers] using h

theorem dictGet_dictSet_self (s : Store) (k v : String) :
    dictGet (dictSet s k v) k = some v := by
  induction s with
  | nil => simp [dictSet, dictGet]
  | cons p rest ih =>
      obtain ⟨k', v'⟩ := p
      by_cases h : k' = k
      · simp [dictSet, dictGet, h]
      · simp [dictSet, dictGet, h, ih]

theorem dictSet_idem (s : Store) (k v : String) :
    dictSet (dictSet s k v) k v = dictSet s k v := by
  induction s with
  | nil => simp [dictSet]
  | cons p rest ih =>
      obtain ⟨k', v'⟩ := p
      by_cases h : k' = k
      · simp [dictSet, h]
      · simp [dictSet, h, ih]

theorem lockDiscipline_network_unlocked (n : Nat) :
    lockDiscipline false (List.replicate n Action.network) = true := by
  induction n with
  | zero => rfl
  | succ m ih => simpa [List.replicate_succ, lockDiscipline] using ih

/-! ### Claims -/

/-- C1: on a Leader node, for a `POST /set` body containing both `key`
and `value`, `set_value` returns success (HTTP 200 carrying the
achieved replica count) if and only if the acknowledgment count
returned by `replicate_to_followers` is at least the configured write
quorum; otherwise it returns a QuorumError (HTTP 500) whose detail
reports the achieved count, which is below the quorum. -/
theorem set_value_quorum_iff (quorum : Nat) (store : Store) (body : Body)
    (results : List Bool) (hbody : invalidBody body = false) :
    ((set_value "leader" quorum store body results).2.isOk = true ↔
        quorum ≤ replicate_to_followers quorum results) ∧
    (quorum ≤ replicate_to_followers quorum results →
        (set_value "leader" quorum store body results).2 =
          SetResponse.ok ((bodyField body "key").getD "")
            ((bodyField body "value").getD "")
            (replicate_to_followers quorum results) ∧
        (set_value "leader" quorum store body results).2.statusCode = 200) ∧
    (replicate_to_followers quorum results < quorum →
        (set_value "leader" quorum store body results).2 =
          SetResponse.quorumError (replicate_to_followers quorum results)
            quorum ∧
        (set_value "leader" quorum store body results).2.statusCode = 500) := by
  by_cases h : quorum ≤ replicate_to_followers quorum results <;>
    simp [set_value, hbody, h, SetResponse.isOk, SetResponse.statusCode]

/-- Witness for C1: quorum 1, a valid body, a single acknowledging
follower — the success condition of `set_value_quorum_iff` holds. -/
theorem set_value_quorum_iff_witness :
    (set_value "leader" 1 [] (some [("key", "a"), ("value", "1")])
        [true]).2.isOk = true ↔
      1 ≤ replicate_to_followers 1 [true] :=
  (set_value_quorum_iff 1 [] (some [("key", "a"), ("value", "1")]) [true]
    (by decide)).1

/-- C3: the count returned by `replicate_to_followers` is invariant
under every reordering (dispatch order and completion order) of the
per-follower outcomes, and whenever it stays below the quorum, the
returned count equals the total number of acknowledgments. -/
theorem fanout_order_independent (quorum : Nat) (l₁ l₂ : List Bool)
    (hperm : l₁.Perm l₂) :
    replicate_to_followers quorum l₁ = replicate_to_followers quorum l₂ ∧
    (replicate_to_followers quorum l₁ < quorum →
        replicate_to_followers quorum l₁ = countTrue l₁) := by
  constructor
  · rw [replicate_to_followers_eq, replicate_to_followers_eq,
      countTrue_perm hperm]
  · intro h
    rw [replicate_to_followers_eq] at h ⊢
    omega

/-- Witness for C3: two orderings of the same outcome multiset give
the same count. -/
theorem fanout_order_independent_witness :
    replicate_to_followers 2 [true, false, true] =
      replicate_to_followers 2 [false, true, true] :=
  (fanout_order_independent 2 [true, false, true] [false, true, true]
    (by decide)).1

/-- C4: on a Leader node with a valid body, the (key, value) pair is
written into the local store before replication begins (the store
write and lock release precede every network action in the trace) and
is never rolled back: the resulting store is `dictSet store key value`
and maps the key to the value, for every fan-out outcome, including
those that end in a QuorumError. -/
theorem set_value_write_through (quorum : Nat) (store : Store) (body : Body)
    (results : List Bool) (hbody : invalidBody body = false) :
    (set_value "leader" quorum store body results).1 =
        dictSet store ((bodyField body "key").getD "")
          ((bodyField body "value").getD "") ∧
    dictGet (set_value "leader" quorum store body results).1
        ((bodyField body "key").getD "") =
      some ((bodyField body "value").getD "") ∧
    (replicate_to_followers quorum results < quorum →
        (set_value "leader" quorum store body results).2 =
          SetResponse.quorumError (replicate_to_followers quorum results)
            quorum) ∧
    (∀ n, set_value_trace SetPath.main n =
        [Action.acquire, Action.mapAccess, Action.release] ++
          List.replicate n Action.network) := by
  have hstore : (set_value "leader" quorum store body results).1 =
      dictSet store ((bodyField body "key").getD "")
        ((bodyField body "value").getD "") := by
    by_cases h : quorum ≤ replicate_to_followers quorum results <;>
      simp [set_value, hbody, h]
  refine ⟨hstore, ?_, ?_, fun n => rfl⟩
  · rw [hstore, dictGet_dictSet_self]
  · intro h
    simp [set_value, hbody, Nat.not_le.mpr h]

/-- Witness for C4: after a failing fan-out (no acknowledgment,
quorum 1) the leader's store still maps the key to the value. -/
theorem set_value_write_through_witness :
    dictGet (set_value "leader" 1 [] (some [("key", "a"), ("value", "1")])
        [false]).1
      ((bodyField (some [("key", "a"), ("value", "1")]) "key").getD "") =
      some ((bodyField (some [("key", "a"), ("value", "1")]) "value").getD
        "") :=
  (set_value_write_through 1 [] (some [("key", "a"), ("value", "1")])
    [false] (by decide)).2.1

/-- C5: a `POST /set` on a node whose role is not `leader` yields a
RoleError (HTTP 403) and leaves the store unchanged, and a
`POST /replicate` on a node whose role is not `follower` yields a
RoleError and leaves the store unchanged — for every body, quorum and
fan-out outcome. -/
theorem role_rejection (roleA roleB : String) (quorum : Nat)
    (storeA storeB : Store) (bodyA bodyB : Body) (results : List Bool)
    (hA : roleA ≠ "leader") (hB : roleB ≠ "follower") :
    set_value roleA quorum storeA bodyA results =
      (storeA, SetResponse.roleError) ∧
    (set_value roleA quorum storeA bodyA results).2.statusCode = 403 ∧
    replicate roleB storeB bodyB = (storeB, ReplicateResponse.roleError) ∧
    (replicate roleB storeB bodyB).2.statusCode = 403 := by
  simp [set_value, replicate, hA, hB, SetResponse.statusCode,
    ReplicateResponse.statusCode]

/-- Witness for C5: a follower receiving `/set` and a leader receiving
`/replicate` are both rejected with the store unchanged. -/
theorem role_rejection_witness :
    set_value "follower" 3 [("x", "1")] (some [("key", "a"), ("value", "1")])
        [true, true, true] = ([("x", "1")], SetResponse.roleError) ∧
    (set_value "follower" 3 [("x", "1")]
        (some [("key", "a"), ("value", "1")])
        [true, true, true]).2.statusCode = 403 ∧
    replicate "leader" [("x", "1")] (some [("key", "a"), ("value", "1")]) =
      ([("x", "1")], ReplicateResponse.roleError) ∧
    (replicate "leader" [("x", "1")]
        (some [("key", "a"), ("value", "1")])).2.statusCode = 403 :=
  role_rejection "follower" "leader" 3 [("x", "1")] [("x", "1")]
    (some [("key", "a"), ("value", "1")]) (some [("key", "a"), ("value", "1")])
    [true, true, true] (by decide) (by decide)

/-- C6 counterexample: the claim says an empty-string key (malformed
per the contract) is rejected with a ValidationError and no state is
mutated; on a leader with body (key = "", value = "v") and one
acknowledging follower at quorum 1, `set_value` instead accepts the
write, mutates the store, and returns success. -/
theorem empty_key_accepted :
    set_value "leader" 1 [] (some [("key", ""), ("value", "v")]) [true] =
      ([("", "v")], SetResponse.ok "" "v" 1) ∧
    (set_value "leader" 1 [] (some [("key", ""), ("value", "v")])
        [true]).2 ≠ SetResponse.validationError := by
  decide

/-- C6 as amended: `set_value` on a leader and `replicate` on a
follower return a ValidationError (HTTP 400) exactly when the body is
missing/falsy or lacks the `key` or `value` field, and in that case
the store is left unchanged; field presence is all that is checked —
an empty-string key is not rejected. -/
theorem validation_iff_missing_field (quorum : Nat) (store : Store)
    (body : Body) (results : List Bool) :
    ((set_value "leader" quorum store body results).2 =
        SetResponse.validationError ↔ invalidBody body = true) ∧
    (invalidBody body = true →
        (set_value "leader" quorum store body results).1 = store ∧
        (set_value "leader" quorum store body
            results).2.statusCode = 400) ∧
    ((replicate "follower" store body).2 =
        ReplicateResponse.validationError ↔ invalidBody body = true) ∧
    (invalidBody body = true →
        (replicate "follower" store body).1 = store ∧
        (replicate "follower" store body).2.statusCode = 400) := by
  by_cases h : invalidBody body = true <;>
    by_cases hq : quorum ≤ replicate_to_followers quorum results <;>
      simp [set_value, replicate, h, hq, SetResponse.statusCode,
        ReplicateResponse.statusCode]

/-- C7: on a follower, applying `replicate` twice with the same
(key, value) yields exactly the store produced by applying it once,
and each application returns the acknowledgment naming the key. -/
theorem replicate_idempotent (store : Store) (k v : String) :
    (replicate "follower"
        (replicate "follower" store (some [("key", k), ("value", v)])).1
        (some [("key", k), ("value", v)])).1 =
      (replicate "follower" store (some [("key", k), ("value", v)])).1 ∧
    (replicate "follower" store (some [("key", k), ("value", v)])).2 =
      ReplicateResponse.ok k ∧
    (replicate "follower"
        (replicate "follower" store (some [("key", k), ("value", v)])).1
        (some [("key", k), ("value", v)])).2 = ReplicateResponse.ok k := by
  have hkey : bodyField (some [("key", k), ("value", v)]) "key" = some k := by
    simp [bodyField, dictGet]
  have hval : bodyField (some [("key", k), ("value", v)]) "value" =
      some v := by
    simp [bodyField, dictGet]
  have hb : invalidBody (some [("key", k), ("value", v)]) = false := by
    simp [invalidBody, bodyFalsy, hkey, hval]
  simp [replicate, hb, hkey, hval, dictSet_idem]

/-- C8: a per-follower transport error or non-200 response is recorded
as a failure for that follower only: it is a `false` result that never
aborts the aggregation loop, the fan-out submits exactly one attempt
per configured follower (no retry), and the outcome recorded for a
follower depends only on that follower's own transport result, never
on another follower's. -/
theorem per_follower_failure_isolated :
    replicate_to_one_follower TransportResult.exc = false ∧
    (∀ s : Nat, s ≠ 200 →
        replicate_to_one_follower (TransportResult.ok s) = false) ∧
    (∀ quorum c rs, fanoutLoop quorum c (false :: rs) =
        fanoutLoop quorum c rs) ∧
    (∀ followers transport,
        fanoutResults followers transport =
          followers.map (fun f => replicate_to_one_follower (transport f))) ∧
    (∀ (followers : List String) (t₁ t₂ : String → TransportResult)
        (i : Nat),
        followers[i]?.map t₁ = followers[i]?.map t₂ →
        (fanoutResults followers t₁)[i]? =
          (fanoutResults followers t₂)[i]?) := by
  refine ⟨rfl, ?_, fun _ _ _ => rfl, fun _ _ => rfl, ?_⟩
  · intro s hs
    simp [replicate_to_one_follower, hs]
  · intro followers t₁ t₂ i h
    simp only [fanoutResults, List.getElem?_map]
    cases hf : followers[i]? with
    | none => simp
    | some f =>
        rw [hf] at h
        simp only [Option.map_some', Option.some.injEq] at h
        simp [hf, h]

/-- C9: on every execution path of `set_value`, `replicate`,
`get_value` and `status`, the store lock is held only around map
accesses — never across a network call — and `set_value` releases the
lock before the replication fan-out's network calls begin. -/
theorem lock_never_held_during_network :
    (∀ p n, lockDiscipline false (set_value_trace p n) = true) ∧
    (∀ p, lockDiscipline false (replicate_trace p) = true) ∧
    lockDiscipline false get_value_trace = true ∧
    lockDiscipline false status_trace = true ∧
    (∀ n, set_value_trace SetPath.main n =
        [Action.acquire, Action.mapAccess, Action.release] ++
          replicate_to_followers_trace n) := by
  refine ⟨?_, ?_, rfl, rfl, fun n => rfl⟩
  · intro p n
    cases p with
    | roleErr => rfl
    | valErr => rfl
    | main =>
        simpa [set_value_trace, replicate_to_followers_trace, lockDiscipline]
          using lockDiscipline_network_unlocked n
  · intro p
    cases p <;> rfl

/-- C10: with the configured quorum at least 1, the count returned by
`replicate_to_followers` equals `min(total acknowledgments, quorum)` —
the loop stops counting at the threshold — so the replica count in a
successful `/set` response is always exactly the quorum, never more. -/
theorem fanout_success_count_exact (quorum : Nat) (hq : 1 ≤ quorum)
    (results : List Bool) :
    replicate_to_followers quorum results =
      min (countTrue results) quorum ∧
    (quorum ≤ replicate_to_followers quorum results →
        replicate_to_followers quorum results = quorum) ∧
    (∀ (store : Store) (body : Body) (k v : String) (n : Nat),
        (set_value "leader" quorum store body results).2 =
          SetResponse.ok k v n → n = quorum) := by
  have h := replicate_to_followers_eq quorum results
  have hmax : max quorum 1 = quorum := by omega
  rw [hmax] at h
  refine ⟨h, by omega, ?_⟩
  intro store body k v n hok
  by_cases hb : invalidBody body = true
  · simp [set_value, hb] at hok
  · by_cases hge : quorum ≤ replicate_to_followers quorum results
    · simp [set_value, hb, hge] at hok
      omega
    · simp [set_value, hb, hge] at hok

/-- Witness for C10: quorum 2 with three acknowledgments — the count
returned is min(3, 2) = 2, not 3. -/
theorem fanout_success_count_exact_witness :
    replicate_to_followers 2 [true, true, true] =
      min (countTrue [true, true, true]) 2 :=
  (fanout_success_count_exact 2 (by decide) [true, true, true]).1

/-- C2: the claim says `replicate_to_followers` returns immediately
when the running count reaches the quorum, not waiting for the
outstanding attempts. The counting loop does `break` at the quorum
(the count is unaffected by later results), but exiting the
`with ThreadPoolExecutor` block calls `shutdown(wait=True)`, so the
function returns only after every attempt completes: with quorum 1
and two acknowledging attempts completing at times 1 and 100, the
quorum is reached at time 1 yet the return happens at time 100. -/
theorem fanout_waits_for_outstanding :
    quorumReachTime 1 0
        (completionOrder [Attempt.mk 1 true, Attempt.mk 100 true]) =
      some 1 ∧
    fanoutReturnTime [Attempt.mk 1 true, Attempt.mk 100 true] = 100 ∧
    1 < fanoutReturnTime [Attempt.mk 1 true, Attempt.mk 100 true] ∧
    replicate_to_followers 1
        (ackSequence [Attempt.mk 1 true, Attempt.mk 100 true]) = 1 := by
  decide

end Lab4
